import Mathlib

/-!
Verification development for the rnnmorph tagger core
(`rnnmorph/model.py`, `rnnmorph/char_embeddings_model.py`).

The Python source is shallowly embedded: pure computations become Lean
functions on `List`/`Nat`/`ℚ`; NumPy float arithmetic is modelled with exact
rationals (at every input appearing in a theorem below the IEEE computation of
the source and the exact rational computation agree); the external Keras
encoder is an explicit function parameter constrained only by its input/output
shape contract; file-system presence tests become explicit `Option`/`Bool`
parameters; Python object mutation relevant to frame conditions is modelled by
an explicit heap (a list of values indexed by integer references).
-/

namespace RnnMorph

/-- Python `lst[:b]` for an arbitrary integer `b` (negative `b` counts from
the end; `-0 = 0` selects nothing). -/
def pyTake (b : Int) (l : List α) : List α :=
  if 0 ≤ b then l.take b.toNat else l.take (l.length - (-b).toNat)

/-- Python `lst[b:]` for an arbitrary integer `b` (negative `b` counts from
the end; `-0 = 0` selects the whole list). -/
def pyDrop (b : Int) (l : List α) : List α :=
  if 0 ≤ b then l.drop b.toNat else l.drop (l.length - (-b).toNat)

/-- Python `int()` applied to an exact rational: truncation toward zero. -/
def pyInt (q : ℚ) : Int :=
  if 0 ≤ q then q.floor else q.ceil

/-- `np.argmax`, auxiliary loop carrying the best index and value so far. -/
def argmaxAux (bestIdx : Nat) (bestVal : ℚ) (i : Nat) : List ℚ → Nat
  | [] => bestIdx
  | x :: xs =>
    if bestVal < x then argmaxAux i x (i + 1) xs
    else argmaxAux bestIdx bestVal (i + 1) xs

/-- `np.argmax` over a probability row: first index attaining the maximum. -/
def npArgmax : List ℚ → Nat
  | [] => 0
  | x :: xs => argmaxAux 0 x 1 xs

/-- Character encoding of the source,
`CHAR_SET.index(ch) if ch in CHAR_SET else len(CHAR_SET)`: this is exactly
`List.indexOf`, which returns the list length for absent elements. -/
def char_index (charSet : List Char) (ch : Char) : Nat :=
  charSet.indexOf ch

namespace CharEmbeddingsModel

/-- Start offset of the NumPy slice `row[-k:]` where
`k = min(len(word), max_word_length)`: `-0:` selects the whole row while
`-k:` for `k > 0` starts `k` cells before the end of the width-`maxLen`
row. -/
def slice_start (wLen maxLen : Nat) : Nat :=
  if min wLen maxLen = 0 then 0 else maxLen - min wLen maxLen

/-- One row of `CharEmbeddingsModel.prepare_words`:
`[ci ch for ch in word][:max_word_length]` assigned into the cells from
`slice_start` onward of a zero row of width `max_word_length`. `none` models
the NumPy broadcast error raised when the slice width does not match the
assigned length. -/
def prepare_word (ci : Char → Nat) (maxLen : Nat) (w : List Char) :
    Option (List Nat) :=
  if maxLen - slice_start w.length maxLen = ((w.map ci).take maxLen).length then
    some (List.replicate (slice_start w.length maxLen) 0 ++ (w.map ci).take maxLen)
  else
    none

/-- `prepare_words`: the char matrix (one row per vocabulary word) and the
target vector `y = [0, 1, ..., size - 1]`. -/
def prepare_words (ci : Char → Nat) (maxLen : Nat) (vocab : List (List Char)) :
    Option (List (List Nat)) × List Nat :=
  (vocab.mapM (prepare_word ci maxLen), List.range vocab.length)

end CharEmbeddingsModel

/-- Modelled from the spec: `WordVocabulary.shrink(n)` "keeps only the top-n
by frequency, discarding the rest" (`word_vocabulary.py` is outside the
embedded sources); a vocabulary value is its frequency-ordered word list. -/
def shrink (n : Nat) (words : List String) : List String :=
  words.take n

/-- The `else` (training) branch of `get_char_model`, restricted to its effect
on vocabulary objects. Python references are explicit addresses into a heap of
vocabulary values: `vocabulary = copy.deepcopy(vocabulary)` allocates a fresh
cell at address `heap.length` holding a copy of the caller's cell `vref`, and
`vocabulary.shrink(embeddings.shape[0])` then mutates the cell the local name
refers to. Returns the heap after both statements together with the address
held by the local `vocabulary`. -/
def get_char_model_vocab_effect (heap : List (List String)) (vref rows : Nat) :
    List (List String) × Nat :=
  ((heap ++ [heap.getD vref []]).set heap.length
      (shrink rows ((heap ++ [heap.getD vref []]).getD heap.length [])),
   heap.length)

/-- Outcome of `get_char_model`: either the cached model was loaded, or a model
was built and trained (and possibly saved). -/
inductive CharModelResult
  | loaded
  | trained (saved : Bool)
  deriving DecidableEq

/-- Control flow of `get_char_model`: if a config path is given and the file
exists, assert the weights path is given and its file exists (AssertionError
otherwise) and load; else build and train, saving only when both paths are
given. -/
def get_char_model (file_exists : String → Bool)
    (model_config_path model_weights_path : Option String) :
    Except String CharModelResult :=
  match model_config_path with
  | some cp =>
    if file_exists cp then
      match model_weights_path with
      | some wp =>
        if file_exists wp then Except.ok CharModelResult.loaded
        else Except.error "AssertionError"
      | none => Except.error "AssertionError"
    else Except.ok (CharModelResult.trained model_weights_path.isSome)
  | none => Except.ok (CharModelResult.trained false)

namespace LSTMMorphoAnalysis

/-- Provenance of one of the three vocabulary artifacts after `prepare`. -/
inductive ArtifactState
  | fresh
  | loadedFrom (nonEmpty : Bool)
  | rebuilt
  deriving DecidableEq

/-- `is_empty()` of an artifact object: a freshly constructed object is empty,
a loaded one is as empty as its dump, and `Loader().parse_corpora` returns
populated objects. -/
def ArtifactState.emptyFlag : ArtifactState → Bool
  | ArtifactState.fresh => true
  | ArtifactState.loadedFrom b => !b
  | ArtifactState.rebuilt => false

/-- Presence/content of the three dump files: `none` when the file is absent,
`some b` when it exists and loads an object whose `is_empty()` is `!b`. -/
structure DumpFiles where
  gram_input : Option Bool
  gram_output : Option Bool
  vocab : Option Bool
  deriving DecidableEq

/-- Result of `prepare`: the provenance of the three artifacts and whether the
three dump files were (over)written. -/
structure PrepareOutcome where
  gram_input : ArtifactState
  gram_output : ArtifactState
  vocab : ArtifactState
  dumps_saved : Bool
  deriving DecidableEq

/-- The conditional load at the top of `prepare`: a fresh object, replaced by
the dump's content when the dump file exists. -/
def loadStep : Option Bool → ArtifactState
  | some b => ArtifactState.loadedFrom b
  | none => ArtifactState.fresh

/-- `LSTMMorphoAnalysis.prepare`: load whichever dumps exist; if any of the
three artifacts is then empty, rebuild all three from one corpus parse and
save all three dumps. -/
def prepare (fs : DumpFiles) : PrepareOutcome :=
  if (loadStep fs.gram_input).emptyFlag || (loadStep fs.gram_output).emptyFlag
      || (loadStep fs.vocab).emptyFlag then
    ⟨ArtifactState.rebuilt, ArtifactState.rebuilt, ArtifactState.rebuilt, true⟩
  else
    ⟨loadStep fs.gram_input, loadStep fs.gram_output, loadStep fs.vocab, false⟩

/-- `LSTMMorphoAnalysis.get_split`, with `np.random.permutation(sample_counter)`
supplied as the explicit list `perm` (modelled from the spec: the external
generator returns a permutation of `0..sample_counter-1`). The border is
`int(sample_counter * (1 - val_part))`; at the inputs used in the theorems
below the source's IEEE double computation agrees with the exact rational
one. -/
def get_split (perm : List Nat) (val_part : ℚ) : List Nat × List Nat :=
  (pyTake (pyInt ((perm.length : ℚ) * (1 - val_part))) perm,
   pyDrop (pyInt ((perm.length : ℚ) * (1 - val_part))) perm)

/-- `count_zero` of `evaluate`: the number of positions of a gold sentence
whose class is the pad value 0 (the source counts all of them, not only the
leading ones). -/
def count_zero (gold : List Nat) : Nat :=
  (gold.filter (fun t => t == 0)).length

/-- The scored (gold, predicted) pairs of one sentence in `evaluate`: drop the
first `count_zero` positions of both the gold tags and the predicted
probability rows, decode the remaining rows by full arg-max, and pair them
up. -/
def sentence_pairs (gold : List Nat) (probs : List (List ℚ)) :
    List (Nat × Nat) :=
  (gold.drop (count_zero gold)).zip ((probs.drop (count_zero gold)).map npArgmax)

/-- Word errors of one sentence in `evaluate`: scored pairs that disagree. -/
def sentence_word_errors (gold : List Nat) (probs : List (List ℚ)) : Nat :=
  ((sentence_pairs gold probs).filter (fun p => p.1 != p.2)).length

/-- `word_count` accumulated by `evaluate` over a batch. -/
def evaluate_word_count (gold : List (List Nat))
    (probs : List (List (List ℚ))) : Nat :=
  ((gold.zip probs).map (fun gp => (sentence_pairs gp.1 gp.2).length)).sum

/-- `word_errors` accumulated by `evaluate` over a batch. -/
def evaluate_word_errors (gold : List (List Nat))
    (probs : List (List (List ℚ))) : Nat :=
  ((gold.zip probs).map (fun gp => sentence_word_errors gp.1 gp.2)).sum

/-- `sentence_errors` accumulated by `evaluate`: sentences with at least one
word error. -/
def evaluate_sentence_errors (gold : List (List Nat))
    (probs : List (List (List ℚ))) : Nat :=
  ((gold.zip probs).filter (fun gp => sentence_word_errors gp.1 gp.2 != 0)).length

/-- The word accuracy `evaluate` reports:
`1.0 - word_errors / word_count`. -/
def word_accuracy (gold : List (List Nat)) (probs : List (List (List ℚ))) : ℚ :=
  1 - (evaluate_word_errors gold probs : ℚ) / (evaluate_word_count gold probs : ℚ)

/-- The sentence accuracy `evaluate` reports:
`1.0 - sentence_errors / sentence_count`. -/
def sentence_accuracy (gold : List (List Nat))
    (probs : List (List (List ℚ))) : ℚ :=
  1 - (evaluate_sentence_errors gold probs : ℚ) / (gold.length : ℚ)

/-- Observable events of the `train` loop. -/
inductive TrainEvent
  | fit (big : Nat) (batch : Nat)
  | saveCheckpoint
  | evalEpoch (big : Nat)
  deriving DecidableEq

/-- The checkpoint condition of `train`:
`epoch != 0 and epoch % dump_model_freq == 0`. -/
def save_cond (freq e : Nat) : Bool :=
  e != 0 && e % freq == 0

/-- Events of one batch iteration of `train`: a gradient update, followed by a
checkpoint save when the in-epoch batch index is a nonzero multiple of
`dump_model_freq`. -/
def batch_events (big e freq : Nat) : List TrainEvent :=
  [TrainEvent.fit big e]
    ++ (if save_cond freq e then [TrainEvent.saveCheckpoint] else [])

/-- Events of the inner batch loop of one big epoch of `train`. -/
def epoch_trace (big freq : Nat) : Nat → List TrainEvent
  | 0 => []
  | n + 1 => epoch_trace big freq n ++ batch_events big n freq

/-- Event trace of `train` for a given number of big epochs, each of
`num_batches` batches: every big epoch runs its batch loop and then the
end-of-epoch evaluation pass. -/
def train_trace (freq num_batches : Nat) : Nat → List TrainEvent
  | 0 => []
  | n + 1 => train_trace freq num_batches n
      ++ epoch_trace n freq num_batches ++ [TrainEvent.evalEpoch n]

/-- `max_sentence_len = max([len(sentence) for sentence in sentences])`
(0 for the empty batch, on which the source raises). -/
def max_sentence_len (sentences : List (List String)) : Nat :=
  (sentences.map List.length).foldr max 0

/-- `LSTMMorphoAnalysis.predict_proba`. The grammeme and char tensors start as
zeros of width `max_sentence_len` and each sentence's sample vectors are
assigned into the last `len(sentence)` cells; the result of the forward pass
over the padded batch is returned as is. `forward` is the opaque Keras model
(`self.model.predict`) and `get_sample` is `BatchGenerator.get_sample`; both
are external to the embedded sources and appear as explicit parameters. -/
def predict_proba (gram_count max_word_len : Nat)
    (forward : List (List (List ℚ)) → List (List (List Nat)) → List (List (List ℚ)))
    (get_sample : List String → List (List ℚ) × List (List Nat))
    (sentences : List (List String)) : List (List (List ℚ)) :=
  forward
    (sentences.map (fun s =>
      List.replicate (max_sentence_len sentences - s.length)
        (List.replicate gram_count (0 : ℚ)) ++ (get_sample s).1))
    (sentences.map (fun s =>
      List.replicate (max_sentence_len sentences - s.length)
        (List.replicate max_word_len (0 : Nat)) ++ (get_sample s).2))

/-- `LSTMMorphoAnalysis.predict`: for each sentence take the last
`len(sentence)` probability rows of the `predict_proba` output (Python slice
`probs[-len(sentence):]`) and append `np.argmax(grammeme_probs[1:])` for each
retained row. -/
def predict (gram_count max_word_len : Nat)
    (forward : List (List (List ℚ)) → List (List (List Nat)) → List (List (List ℚ)))
    (get_sample : List String → List (List ℚ) × List (List Nat))
    (sentences : List (List String)) : List (List Nat) :=
  (sentences.zip
      (predict_proba gram_count max_word_len forward get_sample sentences)).map
    (fun sp => (pyDrop (-(sp.1.length : Int)) sp.2).map
      (fun row => npArgmax (row.drop 1)))

end LSTMMorphoAnalysis

end RnnMorph

open RnnMorph RnnMorph.CharEmbeddingsModel RnnMorph.LSTMMorphoAnalysis

/-- Concrete alphabet for the truncation counterexample. -/
def c2_charset : List Char := ['a', 'b', 'c', 'd', 'e', 'f']

/-- Concrete alphabet for the fixed-width example (`'!'` keeps the letter
indices away from the pad value 0). -/
def c8_charset : List Char := ['!', 'к', 'о', 'т']

/-- One-hot probability row of width `n` peaking at class `c`. -/
def onehot (n c : Nat) : List ℚ :=
  (List.range n).map (fun j => if j = c then 1 else 0)

/-- Gold classes of the evaluation example: pad prefixes of lengths 2 and 1. -/
def c4_gold : List (List Nat) := [[0, 0, 5], [0, 7, 3]]

/-- Predicted distributions of the evaluation example: top classes
`[_, _, 5]` and `[_, 7, 9]`. -/
def c4_probs : List (List (List ℚ)) :=
  [[onehot 10 1, onehot 10 1, onehot 10 5],
   [onehot 10 1, onehot 10 7, onehot 10 9]]

/-- A shape-respecting encoder output for the single-token batch of the
pad-class decoding analysis: classes 0, 1 and 2 get scores 0, 9 and 1
(class 1 is the best class, pad class 0 the worst). -/
def c1_forward : List (List (List ℚ)) → List (List (List Nat)) →
    List (List (List ℚ)) :=
  fun _ _ => [[[0, 9, 1]]]

/-- A trivial `get_sample` stand-in returning one feature row per token. -/
def c1_sample : List String → List (List ℚ) × List (List Nat) :=
  fun s => (s.map (fun _ => [(0 : ℚ)]), s.map (fun _ => [(0 : Nat)]))

/-- A shape-preserving encoder stand-in: one (degenerate) distribution per
input position of every sentence in the batch. -/
def c3_forward : List (List (List ℚ)) → List (List (List Nat)) →
    List (List (List ℚ)) :=
  fun grams _ => grams.map (fun srows => srows.map (fun _ => [(1 : ℚ)]))

/-- A trivial `get_sample` stand-in returning one feature row per token. -/
def c3_sample : List String → List (List ℚ) × List (List Nat) :=
  fun s => (s.map (fun _ => [(0 : ℚ)]), s.map (fun _ => [(0 : Nat)]))

/-- A file system on which both the config and the weights file exist. -/
def c6_fs_both : String → Bool := fun _ => true

/-- A file system on which only the config file exists. -/
def c6_fs_config_only : String → Bool := fun s => s == "cfg"

/-! ### Helper lemmas -/

theorem pyTake_append_pyDrop (b : Int) (l : List α) :
    pyTake b l ++ pyDrop b l = l := by
  unfold pyTake pyDrop
  split <;> exact List.take_append_drop _ l

theorem le_foldr_max {a : Nat} {l : List Nat} (h : a ∈ l) :
    a ≤ l.foldr max 0 := by
  induction l with
  | nil => cases h
  | cons x xs ih =>
    rcases List.mem_cons.mp h with rfl | hmem
    · exact Nat.le_max_left _ _
    · exact Nat.le_trans (ih hmem) (Nat.le_max_right _ _)

theorem set_append_singleton (l : List α) (a b : α) :
    (l ++ [a]).set l.length b = l ++ [b] := by
  induction l with
  | nil => rfl
  | cons x xs ih =>
    show x :: ((xs ++ [a]).set xs.length b) = x :: (xs ++ [b])
    rw [ih]

theorem getD_append_left (l l₂ : List α) (i : Nat) (d : α) (h : i < l.length) :
    (l ++ l₂).getD i d = l.getD i d := by
  induction l generalizing i with
  | nil => exact absurd h (Nat.not_lt_zero i)
  | cons x xs ih =>
    cases i with
    | zero => rfl
    | succ n => exact ih n (Nat.lt_of_succ_lt_succ h)

theorem count_zero_replicate_append (k : Nat) (rest : List Nat)
    (h : 0 ∉ rest) : count_zero (List.replicate k 0 ++ rest) = k := by
  unfold count_zero
  rw [List.filter_append]
  have h1 : (List.replicate k 0).filter (fun t => t == 0) = List.replicate k 0 := by
    apply List.filter_eq_self.mpr
    intro a ha
    simp [List.eq_of_mem_replicate ha]
  have h2 : rest.filter (fun t => t == 0) = [] := by
    apply List.filter_eq_nil_iff.mpr
    intro a ha
    simp only [beq_iff_eq]
    intro hz
    exact h (hz ▸ ha)
  rw [h1, h2]
  simp

theorem count_save_batch_events (big e freq : Nat) :
    (batch_events big e freq).count TrainEvent.saveCheckpoint
      = if save_cond freq e then 1 else 0 := by
  unfold batch_events
  rw [List.count_append]
  have h1 : ([TrainEvent.fit big e] : List TrainEvent).count
      TrainEvent.saveCheckpoint = 0 :=
    List.count_eq_zero.mpr (by simp)
  rw [h1]
  split <;> simp

theorem count_save_epoch_trace (big freq n : Nat) :
    (epoch_trace big freq n).count TrainEvent.saveCheckpoint
      = ((List.range n).filter (save_cond freq)).length := by
  induction n with
  | zero => rfl
  | succ m ih =>
    rw [epoch_trace, List.count_append, ih, List.range_succ,
        List.filter_append, List.length_append, count_save_batch_events,
        List.filter_singleton]
    split <;> simp_all

theorem count_save_train_trace (freq nb epochs : Nat) :
    (train_trace freq nb epochs).count TrainEvent.saveCheckpoint
      = epochs * ((List.range nb).filter (save_cond freq)).length := by
  induction epochs with
  | zero => simp [train_trace]
  | succ m ih =>
    rw [train_trace, List.count_append, List.count_append, ih,
        count_save_epoch_trace]
    have h1 : ([TrainEvent.evalEpoch m] : List TrainEvent).count
        TrainEvent.saveCheckpoint = 0 :=
      List.count_eq_zero.mpr (by simp)
    rw [h1]
    ring

theorem getLast?_append_singleton (l : List α) (a : α) :
    (l ++ [a]).getLast? = some a := by
  rw [List.getLast?_concat]

/-! ### Claims -/

/-- C2 counterexample: the claim states that for a word longer than
`max_word_length` the encoding keeps the trailing `max_word_length`
characters. On the 6-character word `"abcdef"` with `max_word_length = 5` the
source keeps the leading five characters `"abcde"` (indices `[0,1,2,3,4]`),
not the trailing five `"bcdef"` (indices `[1,2,3,4,5]`). -/
theorem c2_trailing_truncation_counterexample :
    prepare_word (char_index c2_charset) 5 "abcdef".toList
        = some (("abcdef".toList.take 5).map (char_index c2_charset)) ∧
    prepare_word (char_index c2_charset) 5 "abcdef".toList
        ≠ some (("abcdef".toList.drop 1).map (char_index c2_charset)) := by
  constructor
  · decide
  · decide

/-- C2 (amended): for every word strictly longer than `max_word_length`,
`prepare_words` encodes exactly the leading `max_word_length` characters of
the word (trailing characters are dropped), and they fill the fixed-width
row completely. -/
theorem c2_leading_truncation (ci : Char → Nat) (maxLen : Nat)
    (w : List Char) (h : maxLen < w.length) :
    prepare_word ci maxLen w = some ((w.take maxLen).map ci) := by
  unfold prepare_word slice_start
  have hk : min w.length maxLen = maxLen := Nat.min_eq_right (Nat.le_of_lt h)
  have hlen : ((w.map ci).take maxLen).length = maxLen := by
    simp only [List.length_take, List.length_map]
    omega
  rw [hk]
  have h1 : (if maxLen = 0 then 0 else maxLen - maxLen) = 0 := by
    split <;> omega
  rw [h1, hlen]
  simp [List.map_take]

/-- C2 (amended) witness at `"abcdef"`, `max_word_length = 5`. -/
theorem c2_leading_truncation_witness :
    prepare_word (char_index c2_charset) 5 "abcdef".toList
      = some (("abcdef".toList.take 5).map (char_index c2_charset)) :=
  c2_leading_truncation (char_index c2_charset) 5 "abcdef".toList (by decide)

/-- C8: every row `prepare_words` produces has length exactly
`max_word_length`, consisting of a zero left-pad followed by the (truncated)
character indices right-aligned; in particular `"кот"` with
`max_word_length = 5` encodes as
`[0, 0, index 'к', index 'о', index 'т']`. -/
theorem c8_fixed_width_right_aligned :
    (∀ (ci : Char → Nat) (maxLen : Nat) (w : List Char) (v : List Nat),
        prepare_word ci maxLen w = some v →
          v.length = maxLen ∧
          v = List.replicate (maxLen - w.length) 0 ++ (w.map ci).take maxLen) ∧
    prepare_word (char_index c8_charset) 5 "кот".toList
      = some [0, 0, char_index c8_charset 'к', char_index c8_charset 'о',
              char_index c8_charset 'т'] := by
  constructor
  · intro ci maxLen w v h
    unfold prepare_word at h
    split at h
    case isFalse => exact absurd h (by simp)
    case isTrue hcond =>
      have hv : v = List.replicate (slice_start w.length maxLen) 0
          ++ (w.map ci).take maxLen := by
        exact (Option.some_injective _ h).symm
      have hlen : ((w.map ci).take maxLen).length = min maxLen w.length := by
        simp [List.length_take]
      unfold slice_start at hcond hv
      rcases Nat.le_total w.length maxLen with hle | hle
      · rw [Nat.min_eq_left hle] at hcond hv
        rw [Nat.min_eq_right hle] at hlen
        by_cases hw0 : w.length = 0
        · rw [if_pos hw0] at hcond hv
          have hm0 : maxLen = 0 := by omega
          subst hm0
          constructor
          · rw [hv]; simp [hw0]
          · rw [hv]; simp [hw0]
        · rw [if_neg hw0] at hv
          constructor
          · rw [hv]; simp [List.length_append, List.length_replicate]
          · rw [hv]
      · rw [Nat.min_eq_right hle] at hcond hv
        rw [Nat.min_eq_left hle] at hlen
        by_cases hm0 : maxLen = 0
        · subst hm0
          constructor
          · rw [hv]; simp
          · rw [hv]; simp
        · rw [if_neg hm0] at hv
          have hsub : maxLen - maxLen = maxLen - w.length := by omega
          rw [hsub] at hv
          constructor
          · rw [hv]; simp [List.length_append, List.length_replicate]
          · rw [hv]
  · decide

/-- C8 witness: the general fixed-width property instantiated at the `"кот"`
example row. -/
theorem c8_fixed_width_witness :
    ([0, 0, 1, 2, 3] : List Nat).length = 5 ∧
    ([0, 0, 1, 2, 3] : List Nat)
      = List.replicate (5 - "кот".toList.length) 0
          ++ ("кот".toList.map (char_index c8_charset)).take 5 :=
  c8_fixed_width_right_aligned.1 (char_index c8_charset) 5 "кот".toList
    [0, 0, 1, 2, 3] (by decide)

/-- C4: each sentence is scored exactly on the positions past its leading-pad
prefix (once the pad classes 0 form a leading prefix and appear nowhere else),
by full arg-max decoding; and on the example with gold `[[0,0,5],[0,7,3]]` and
predicted top classes `[[_,_,5],[_,7,9]]` the reported word accuracy
`1 - word_errors / word_count` is 2/3 and the reported sentence accuracy
`1 - sentence_errors / sentence_count` is 1/2. -/
theorem c4_evaluate_accuracy :
    (∀ (k : Nat) (rest : List Nat), 0 ∉ rest → ∀ probs : List (List ℚ),
        sentence_pairs (List.replicate k 0 ++ rest) probs
          = rest.zip ((probs.drop k).map npArgmax)) ∧
    word_accuracy c4_gold c4_probs = 2 / 3 ∧
    sentence_accuracy c4_gold c4_probs = 1 / 2 := by
  refine ⟨?_, ?_, ?_⟩
  · intro k rest h probs
    unfold sentence_pairs
    rw [count_zero_replicate_append k rest h]
    have hdrop : (List.replicate k 0 ++ rest).drop k = rest := by
      have := List.drop_left (List.replicate k (0 : Nat)) rest
      rwa [List.length_replicate] at this
    rw [hdrop]
  · have h1 : evaluate_word_errors c4_gold c4_probs = 1 := by decide
    have h2 : evaluate_word_count c4_gold c4_probs = 3 := by decide
    unfold word_accuracy
    rw [h1, h2]
    norm_num
  · have h1 : evaluate_sentence_errors c4_gold c4_probs = 1 := by decide
    have h2 : c4_gold.length = 2 := by decide
    unfold sentence_accuracy
    rw [h1, h2]
    norm_num

/-- C4 witness: the scoring lemma at the first example sentence (pad prefix of
length 2, one real token). -/
theorem c4_evaluate_accuracy_witness :
    sentence_pairs (List.replicate 2 0 ++ [5])
        [onehot 10 1, onehot 10 1, onehot 10 5]
      = [5].zip (([onehot 10 1, onehot 10 1, onehot 10 5].drop 2).map npArgmax) :=
  c4_evaluate_accuracy.1 2 [5] (by decide)
    [onehot 10 1, onehot 10 1, onehot 10 5]

/-- C7: for every corpus size and validation fraction, the two index lists
`get_split` returns are disjoint and together are exactly a permutation of all
`n` indices (each covered once); and for 10 sentences with fraction 0.2 the
train/validation sizes are 8 and 2. -/
theorem c7_get_split_partition (n : Nat) (v : ℚ) (perm : List Nat)
    (hp : perm.Perm (List.range n)) :
    (get_split perm v).1.Disjoint (get_split perm v).2 ∧
    ((get_split perm v).1 ++ (get_split perm v).2).Perm (List.range n) ∧
    (n = 10 → v = 1 / 5 →
      (get_split perm v).1.length = 8 ∧ (get_split perm v).2.length = 2) := by
  have happ : (get_split perm v).1 ++ (get_split perm v).2 = perm :=
    pyTake_append_pyDrop _ perm
  have hnodup : perm.Nodup := hp.nodup_iff.mpr (List.nodup_range n)
  refine ⟨?_, ?_, ?_⟩
  · have : ((get_split perm v).1 ++ (get_split perm v).2).Nodup := by
      rw [happ]; exact hnodup
    exact (List.nodup_append.mp this).2.2
  · rw [happ]; exact hp
  · rintro rfl rfl
    have hlen : perm.length = 10 := by
      rw [hp.length_eq, List.length_range]
    have hb : pyInt ((perm.length : ℚ) * (1 - 1 / 5)) = 8 := by
      rw [hlen]
      have hq : (((10 : Nat) : ℚ)) * (1 - 1 / 5) = 8 := by norm_num
      rw [hq]
      decide
    unfold get_split pyTake pyDrop
    rw [hb, if_pos (by decide), if_pos (by decide),
        List.length_take, List.length_drop, hlen]
    decide

/-- C7 witness: the identity permutation of 10 indices. -/
theorem c7_get_split_partition_witness :
    (get_split (List.range 10) (1 / 5)).1.Disjoint
        (get_split (List.range 10) (1 / 5)).2 ∧
    ((get_split (List.range 10) (1 / 5)).1
        ++ (get_split (List.range 10) (1 / 5)).2).Perm (List.range 10) ∧
    (10 = 10 → (1 : ℚ) / 5 = 1 / 5 →
      (get_split (List.range 10) (1 / 5)).1.length = 8 ∧
      (get_split (List.range 10) (1 / 5)).2.length = 2) :=
  c7_get_split_partition 10 (1 / 5) (List.range 10) (List.Perm.refl _)

/-- C6: `get_char_model` is presence-gated. When the config file exists and
the weights file exists, it loads the cached pair without training; when the
config file exists but the weights file is missing (or no weights path was
given), it fails immediately with an assertion error instead of training. -/
theorem c6_get_char_model_presence_gated (file_exists : String → Bool)
    (cp wp : String) :
    (file_exists cp = true → file_exists wp = true →
      get_char_model file_exists (some cp) (some wp)
        = Except.ok CharModelResult.loaded) ∧
    (file_exists cp = true → file_exists wp = false →
      get_char_model file_exists (some cp) (some wp)
        = Except.error "AssertionError") ∧
    (file_exists cp = true →
      get_char_model file_exists (some cp) none
        = Except.error "AssertionError") := by
  refine ⟨?_, ?_, ?_⟩
  · intro h1 h2
    simp [get_char_model, h1, h2]
  · intro h1 h2
    simp [get_char_model, h1, h2]
  · intro h1
    simp [get_char_model, h1]

/-- C6 witness: load when both files exist, assertion failure when only the
config file exists. -/
theorem c6_get_char_model_witness :
    get_char_model c6_fs_both (some "cfg") (some "wts")
      = Except.ok CharModelResult.loaded ∧
    get_char_model c6_fs_config_only (some "cfg") (some "wts")
      = Except.error "AssertionError" :=
  ⟨(c6_get_char_model_presence_gated c6_fs_both "cfg" "wts").1 rfl rfl,
   (c6_get_char_model_presence_gated c6_fs_config_only "cfg" "wts").2.1
     rfl rfl⟩

/-- C9: in the training branch of `get_char_model` the caller's vocabulary
cell is unchanged — the shrink is applied to the freshly allocated deep copy
(whose address differs from the caller's). -/
theorem c9_caller_vocabulary_unchanged (heap : List (List String))
    (vref rows : Nat) (h : vref < heap.length) :
    ((get_char_model_vocab_effect heap vref rows).1).getD vref []
        = heap.getD vref [] ∧
    (get_char_model_vocab_effect heap vref rows).2 ≠ vref := by
  unfold get_char_model_vocab_effect
  constructor
  · rw [set_append_singleton]
    exact getD_append_left heap _ vref [] h
  · omega

/-- C9 witness: a one-cell heap holding a two-word vocabulary, shrunk to one
row. -/
theorem c9_caller_vocabulary_unchanged_witness :
    ((get_char_model_vocab_effect [["a", "b"]] 0 1).1).getD 0 []
        = [["a", "b"]].getD 0 [] ∧
    (get_char_model_vocab_effect [["a", "b"]] 0 1).2 ≠ 0 :=
  c9_caller_vocabulary_unchanged [["a", "b"]] 0 1 (by decide)

/-- C10: `prepare` never leaves a mix of loaded and rebuilt artifacts. If all
three dump files exist and load non-empty, all three artifacts are the loaded
ones and nothing is saved; in every other case all three are rebuilt together
and all three dumps are written. -/
theorem c10_prepare_no_mixed_state (fs : DumpFiles) :
    ((fs.gram_input = some true ∧ fs.gram_output = some true ∧
        fs.vocab = some true) →
      prepare fs = ⟨ArtifactState.loadedFrom true, ArtifactState.loadedFrom true,
        ArtifactState.loadedFrom true, false⟩) ∧
    (¬(fs.gram_input = some true ∧ fs.gram_output = some true ∧
        fs.vocab = some true) →
      prepare fs = ⟨ArtifactState.rebuilt, ArtifactState.rebuilt,
        ArtifactState.rebuilt, true⟩) := by
  obtain ⟨a, b, c⟩ := fs
  rcases a with _ | (_ | _) <;> rcases b with _ | (_ | _) <;>
    rcases c with _ | (_ | _) <;> decide

/-- C10 witness: all three dumps present and non-empty. -/
theorem c10_prepare_no_mixed_state_witness :
    prepare ⟨some true, some true, some true⟩
      = ⟨ArtifactState.loadedFrom true, ArtifactState.loadedFrom true,
         ArtifactState.loadedFrom true, false⟩ :=
  (c10_prepare_no_mixed_state ⟨some true, some true, some true⟩).1
    ⟨rfl, rfl, rfl⟩

/-- C5 counterexample: a training run of one big epoch of three batches with
`dump_model_freq = 5` performs no checkpoint save at all — in particular the
big epoch ends with the evaluation pass, not with a save, refuting the claimed
save at the end of each full pass. -/
theorem c5_no_epoch_end_save_counterexample :
    train_trace 5 3 1
      = [TrainEvent.fit 0 0, TrainEvent.fit 0 1, TrainEvent.fit 0 2,
         TrainEvent.evalEpoch 0] ∧
    TrainEvent.saveCheckpoint ∉ train_trace 5 3 1 := by
  constructor
  · decide
  · decide

/-- C5 (amended): during `train` the checkpoint is saved exactly after those
batches whose in-epoch index is a nonzero multiple of `dump_model_freq`
(so `epochs * |{e < num_batches | e ≠ 0 ∧ freq ∣ e}|` saves in total); there
is no additional end-of-epoch save — every big epoch ends with the evaluation
pass. -/
theorem c5_checkpoint_schedule (epochs num_batches freq : Nat) :
    (train_trace freq num_batches epochs).count TrainEvent.saveCheckpoint
      = epochs * ((List.range num_batches).filter (save_cond freq)).length ∧
    (0 < epochs →
      (train_trace freq num_batches epochs).getLast?
        = some (TrainEvent.evalEpoch (epochs - 1))) := by
  refine ⟨count_save_train_trace freq num_batches epochs, ?_⟩
  intro hpos
  cases epochs with
  | zero => omega
  | succ m =>
    rw [train_trace, getLast?_append_singleton]
    simp

/-- C5 (amended) witness: one epoch of three batches, `dump_model_freq = 5`. -/
theorem c5_checkpoint_schedule_witness :
    (train_trace 5 3 1).count TrainEvent.saveCheckpoint
      = 1 * ((List.range 3).filter (save_cond 5)).length ∧
    (train_trace 5 3 1).getLast? = some (TrainEvent.evalEpoch (1 - 1)) :=
  ⟨(c5_checkpoint_schedule 1 3 5).1, (c5_checkpoint_schedule 1 3 5).2 (by decide)⟩

/-- C1: the decode loop of `predict` appends `np.argmax(grammeme_probs[1:])`
without re-adding the offset 1, so the returned index is the position within
the tail of the distribution. On a one-token sentence whose output
scores are `[0, 9, 1]` (class 1 is the best non-pad class),
`predict` emits the class index 0 — the reserved pad class the spec says is
never produced; the spec-intended decode (arg-max excluding class 0) would
emit class 1, which is also the full arg-max here. -/
theorem c1_predict_emits_pad_class :
    predict 1 1 c1_forward c1_sample [["a"]] = [[0]] ∧
    npArgmax [0, 9, 1] = 1 := by
  constructor
  · decide
  · decide

/-- C3 counterexample: `predict_proba` on the two sentences `["a"]` and
`["b","c"]` (with a shape-preserving encoder) returns the padded batch as is —
the first returned sentence has 2 probability rows although the sentence has
1 token, so the left-padding prefix is not stripped before returning. -/
theorem c3_unstripped_counterexample :
    ((predict_proba 1 1 c3_forward c3_sample [["a"], ["b", "c"]]).getD 0
        []).length = 2 ∧
    ([["a"], ["b", "c"]].getD 0 ([] : List String)).length = 1 := by
  constructor
  · decide
  · decide

/-- C3 (amended): `predict_proba` returns the forward output over the padded
batch without stripping: whenever the encoder preserves the batch shape and
`get_sample` yields one feature row per token (and no sentence is empty, the
only case in which the source's tensor assignment would fail), every returned
sentence consists of exactly `max_sentence_len` probability rows; the
left-padding prefix is stripped later, by sentence length, in `predict`. -/
theorem c3_predict_proba_padded_shape (gram_count max_word_len : Nat)
    (forward : List (List (List ℚ)) → List (List (List Nat)) →
      List (List (List ℚ)))
    (get_sample : List String → List (List ℚ) × List (List Nat))
    (sentences : List (List String))
    (hshape : ∀ g c, (forward g c).map List.length = g.map List.length)
    (hsample : ∀ s, ((get_sample s).1).length = s.length)
    (_hne : ∀ s ∈ sentences, s ≠ []) :
    (predict_proba gram_count max_word_len forward get_sample sentences).map
        List.length
      = sentences.map (fun _ => max_sentence_len sentences) := by
  unfold predict_proba
  rw [hshape, List.map_map]
  apply List.map_congr_left
  intro s hs
  have hle : s.length ≤ max_sentence_len sentences := by
    unfold max_sentence_len
    exact le_foldr_max (List.mem_map_of_mem List.length hs)
  simp only [Function.comp, List.length_append, List.length_replicate, hsample]
  omega

/-- C3 (amended) witness at the counterexample batch. -/
theorem c3_predict_proba_padded_shape_witness :
    (predict_proba 1 1 c3_forward c3_sample [["a"], ["b", "c"]]).map List.length
      = [["a"], ["b", "c"]].map
          (fun _ => max_sentence_len [["a"], ["b", "c"]]) :=
  c3_predict_proba_padded_shape 1 1 c3_forward c3_sample [["a"], ["b", "c"]]
    (by intro g c; simp [c3_forward])
    (by intro s; simp [c3_sample])
    (by decide)
